import Mathlib

/-!
Verification development for the HR-assistant chat client
(`katsu224/asistenteRRHH`).

The development shallowly embeds the core of the application:

* the data model of `types.ts` (`KnowledgeItem`, `Message`, `Bot`,
  `ActionType`);
* the Gemini service layer of `services/geminiService.ts`
  (`getBaseSystemInstruction`, `buildKnowledgeParts`, `generateContent`,
  `getAnswer`, `reExplain`, `getExample`, `generateImageForConcept`);
* the controller logic of `App.tsx` (`handleBotSelect`,
  `handleSendMessage`, `handleAction`) together with the action-button
  guard of `ChatMessage.tsx` (`disabled := isLoading`).

Network effects are modelled by passing the outcome of each underlying
API call as an explicit `Except` oracle argument; the embedding records
the list of `CompletionClient` calls a controller step performs, so that
"no call is made" is a provable statement.
-/

namespace AsistenteRRHH

/-! ## Data model (`types.ts`) -/

/-- The text-or-image discriminator of the knowledge item type field. -/
inductive ItemType where
  | text
  | image
deriving DecidableEq, Repr

/-- Embedding of `KnowledgeItem` from `types.ts`.  `content` is raw text for text items
and a base64 data URL for images; `mimeType` is the optional MIME type
(present for images). -/
structure KnowledgeItem where
  id : String
  name : String
  type : ItemType
  content : String
  mimeType : Option String
deriving DecidableEq, Repr

/-- The user-or-model discriminator of the message role field. -/
inductive Role where
  | user
  | model
deriving DecidableEq, Repr

/-- Embedding of `Message` from `types.ts`. -/
structure Message where
  id : String
  role : Role
  text : String
  imageUrl : Option String
  relatedQuestionId : Option String
deriving DecidableEq, Repr

/-- Embedding of `Bot` from `types.ts`. -/
structure Bot where
  id : String
  name : String
  image : String
  themeColor : String
  darkThemeColor : String
deriving DecidableEq, Repr

/-- Embedding of `ActionType` from `types.ts`: the follow-up actions.
The example variant is called `exampleReq` because `example` is a Lean
keyword. -/
inductive ActionType where
  | explain
  | exampleReq
  | image
deriving DecidableEq, Repr

/-! ## Service layer (`services/geminiService.ts`) -/

/-- A content block (`Part` of `@google/genai`): either plain text or
inline binary data with a MIME type. -/
inductive Part where
  | text (s : String)
  | inlineData (mimeType : String) (data : String)
deriving DecidableEq, Repr

/-- The text model name (`const textModel`). -/
def textModel : String := "gemini-2.5-flash"

/-- The image model name (`const imageModel`). -/
def imageModel : String := "gemini-2.5-flash-image"

/-- Embedding of `getBaseSystemInstruction` from `geminiService.ts`. -/
def getBaseSystemInstruction (botName : String) : String :=
  "Eres " ++ botName ++ ", un asistente de Recursos Humanos experto y amigable. Tu conocimiento se limita estrictamente a los documentos e imágenes que se te proporcionan como contexto. Tu objetivo es ayudar a los empleados a comprender las políticas de la empresa. Responde únicamente basándote en el material proporcionado. Si la respuesta no está en el material, indica amablemente que no tienes esa información. Responde en español."

/-- Splitting a character list at a separator, JS-style: `splitAux sep cs acc`
processes `cs` with `acc` holding the (reversed) current segment. -/
def splitAux (sep : Char) : List Char → List Char → List String
  | [], acc => [String.mk acc.reverse]
  | c :: cs, acc =>
    if c = sep then String.mk acc.reverse :: splitAux sep cs []
    else splitAux sep cs (c :: acc)

/-- JS `s.split(sep)` for a single-character separator: the list of
segments between occurrences of `sep` ( `""` splits to `[""]` ). -/
def jsSplit (s : String) (sep : Char) : List String :=
  splitAux sep s.data []

/-- JS `s.trim()`: drop whitespace from both ends. -/
def jsTrim (s : String) : String :=
  String.mk (((s.data.dropWhile Char.isWhitespace).reverse.dropWhile
      Char.isWhitespace).reverse)

/-- The text of the document block emitted for a text knowledge item. -/
def docBlockText (name content : String) : String :=
  "--- INICIO DEL DOCUMENTO: " ++ name ++ " ---\n" ++ content ++ "\n--- FIN DEL DOCUMENTO ---"

/-- One iteration of the `forEach` loop in `buildKnowledgeParts`:
`parts.push(...)` on a text item; on an image item with a truthy
`mimeType`, push an inline-data block only when
the second comma-separated segment of the content is a truthy
(present, non-empty) string. -/
def partsStep (parts : List Part) (item : KnowledgeItem) : List Part :=
  match item.type with
  | ItemType.text => parts ++ [Part.text (docBlockText item.name item.content)]
  | ItemType.image =>
    match item.mimeType with
    | some m =>
      if m = "" then parts
      else
        match (jsSplit item.content ',')[1]? with
        | some d => if d = "" then parts else parts ++ [Part.inlineData m d]
        | none => parts
    | none => parts

/-- Embedding of `buildKnowledgeParts` from `geminiService.ts`. -/
def buildKnowledgeParts (knowledgeBase : List KnowledgeItem) : List Part :=
  knowledgeBase.foldl partsStep []

/-- The trailing instruction block text appended by `generateContent`
(a fixed Spanish header followed by the user prompt in quotes). -/
def instructionText (userPrompt : String) : String :=
  "\n---\nBasado en el contexto anterior, responde la siguiente pregunta del empleado:\n\"" ++ userPrompt ++ "\""

/-- The `promptParts` array assembled inside `generateContent`:
the knowledge parts followed by the instruction block. -/
def promptParts (knowledgeBase : List KnowledgeItem) (userPrompt : String) : List Part :=
  buildKnowledgeParts knowledgeBase ++ [Part.text (instructionText userPrompt)]

/-- The apology returned by the catch branch of `generateContent`. -/
def apologyMsg : String :=
  "Lo siento, ocurrió un error al procesar tu solicitud. Por favor, intenta de nuevo."

/-- A request to the text/image generation endpoint
(`ai.models.generateContent` arguments): the model, the optional
`config.systemInstruction`, and the ordered content blocks. -/
structure GenRequest where
  model : String
  systemInstruction : Option String
  parts : List Part
deriving DecidableEq, Repr

/-- The request `generateContent` sends. -/
def generateContentRequest (systemInstruction userPrompt : String)
    (knowledgeBase : List KnowledgeItem) : GenRequest :=
  ⟨textModel, some systemInstruction, promptParts knowledgeBase userPrompt⟩

/-- Embedding of `generateContent` from `geminiService.ts`.  The outcome of the
underlying `ai.models.generateContent` call is the oracle `api`
(`Except.error` = the call threw / was rejected).  The `catch` branch
converts any failure into the fixed apology string, so the function is
total: it never propagates an error. -/
def generateContent (systemInstruction userPrompt : String)
    (knowledgeBase : List KnowledgeItem) (api : Except Unit String) : String :=
  match api with
  | Except.ok t => t
  | Except.error _ => apologyMsg

/-- Embedding of `getAnswer` from `geminiService.ts`. -/
def getAnswer (knowledgeBase : List KnowledgeItem) (question botName : String)
    (api : Except Unit String) : String :=
  generateContent (getBaseSystemInstruction botName) question knowledgeBase api

/-- The system-instruction suffix added by `reExplain`. -/
def reExplainSuffix : String :=
  " Un empleado no entendió una respuesta y ha pedido una explicación alternativa."

/-- The user prompt built by `reExplain`. -/
def reExplainPrompt (question originalAnswer : String) : String :=
  "Pregunta Original: \"" ++ question ++ "\"\nRespuesta Anterior: \"" ++ originalAnswer ++ "\"\n\nPor favor, explica la respuesta anterior de una manera diferente, usando una analogía o términos más sencillos para que sea más fácil de entender."

/-- Embedding of `reExplain` from `geminiService.ts`. -/
def reExplain (knowledgeBase : List KnowledgeItem)
    (question originalAnswer botName : String) (api : Except Unit String) : String :=
  generateContent (getBaseSystemInstruction botName ++ reExplainSuffix)
    (reExplainPrompt question originalAnswer) knowledgeBase api

/-- The system-instruction suffix added by `getExample`. -/
def getExampleSuffix : String :=
  " Un empleado ha solicitado un ejemplo práctico relacionado con una respuesta."

/-- The user prompt built by `getExample`. -/
def getExamplePrompt (question originalAnswer : String) : String :=
  "Pregunta Original: \"" ++ question ++ "\"\nRespuesta Anterior: \"" ++ originalAnswer ++ "\"\n\nPor favor, proporciona un ejemplo concreto y práctico que ilustre el punto principal de la respuesta anterior."

/-- Embedding of `getExample` from `geminiService.ts`. -/
def getExample (knowledgeBase : List KnowledgeItem)
    (question originalAnswer botName : String) (api : Except Unit String) : String :=
  generateContent (getBaseSystemInstruction botName ++ getExampleSuffix)
    (getExamplePrompt question originalAnswer) knowledgeBase api

/-- The `systemInstruction` of the prompt-derivation call inside
`generateImageForConcept` (a constant, independent of the bot). -/
def promptGenerationInstruction : String :=
  "Basado en la siguiente pregunta y respuesta de un manual de empleado, crea un prompt corto y descriptivo en inglés para un modelo de generación de imágenes de IA. El prompt debe capturar la idea central de manera visual y abstracta. Debe ser apto para un entorno profesional. El prompt no debe contener más de 20 palabras."

/-- The user prompt of the prompt-derivation call inside
`generateImageForConcept`. -/
def promptGenerationUserPrompt (question answer : String) : String :=
  "Pregunta: \"" ++ question ++ "\"\nRespuesta: \"" ++ answer ++ "\"\n\nGenera el prompt para la imagen:"

/-- Abstraction of the image-generation response envelope: `inlineData`
is `some data` exactly when
`candidates && candidates[0].content.parts[0].inlineData` is present. -/
structure ImageResponse where
  inlineData : Option String
deriving DecidableEq, Repr

/-- The inner error thrown when the image response has no inline
payload (`throw new Error("No se pudo generar la imagen.")`). -/
def imageEmptyMsg : String := "No se pudo generar la imagen."

/-- The error re-thrown by the catch branch of `generateImageForConcept`. -/
def imageFailMsg : String :=
  "No se pudo generar la imagen. Por favor, intenta de nuevo."

/-- The body of the try block of `generateImageForConcept`.  Argument `firstCall`
is the outcome of the prompt-derivation text call (its `Except.error`
payload is the raw thrown message), `secondCall` the outcome of the
image call.  An absent inline payload raises the inner empty-result
error. -/
def generateImageAttempt (firstCall : Except String String)
    (secondCall : Except String ImageResponse) : Except String String :=
  match firstCall with
  | Except.error e => Except.error e
  | Except.ok _ =>
    match secondCall with
    | Except.error e => Except.error e
    | Except.ok resp =>
      match resp.inlineData with
      | some d => Except.ok ("data:image/png;base64," ++ d)
      | none => Except.error imageEmptyMsg

/-- Embedding of `generateImageForConcept` from `geminiService.ts`: the catch branch
re-throws every failure of the `try` body — transport errors of either
call and the inner empty-result error alike — as the single fixed
message `imageFailMsg`. -/
def generateImageForConcept (firstCall : Except String String)
    (secondCall : Except String ImageResponse) : Except String String :=
  match generateImageAttempt firstCall secondCall with
  | Except.ok v => Except.ok v
  | Except.error _ => Except.error imageFailMsg

/-- The requests issued by `getAnswer`. -/
def getAnswerRequests (knowledgeBase : List KnowledgeItem)
    (question botName : String) : List GenRequest :=
  [generateContentRequest (getBaseSystemInstruction botName) question knowledgeBase]

/-- The requests issued by `reExplain`. -/
def reExplainRequests (knowledgeBase : List KnowledgeItem)
    (question originalAnswer botName : String) : List GenRequest :=
  [generateContentRequest (getBaseSystemInstruction botName ++ reExplainSuffix)
    (reExplainPrompt question originalAnswer) knowledgeBase]

/-- The requests issued by `getExample`. -/
def getExampleRequests (knowledgeBase : List KnowledgeItem)
    (question originalAnswer botName : String) : List GenRequest :=
  [generateContentRequest (getBaseSystemInstruction botName ++ getExampleSuffix)
    (getExamplePrompt question originalAnswer) knowledgeBase]

/-- The requests issued by `generateImageForConcept` when the first call
returns `derivedPrompt` (after `trim`): the prompt-derivation request on
the text model, then the image request, whose `config` sets only the
response modality — no system instruction. -/
def generateImageRequests (question answer derivedPrompt : String) : List GenRequest :=
  [⟨textModel, some promptGenerationInstruction,
      [Part.text (promptGenerationUserPrompt question answer)]⟩,
   ⟨imageModel, none, [Part.text derivedPrompt]⟩]

/-! ## Controller (`App.tsx`) -/

/-- The selecting-or-chatting view discriminator (`appState`). -/
inductive AppView where
  | selecting
  | chatting
deriving DecidableEq, Repr

/-- The React state of `App`: selected bot, knowledge base, chat
history, current input, loading flag and error banner. -/
structure AppState where
  view : AppView
  selectedBot : Option Bot
  knowledgeBase : List KnowledgeItem
  chatHistory : List Message
  userInput : String
  isLoading : Bool
  error : Option String
deriving DecidableEq, Repr

/-- A `CompletionClient` call as observed at the `geminiService`
boundary (one variant per exported service function, suffixed `Call` to
avoid the Lean keyword `example`). -/
inductive ClientCall where
  | answerCall (knowledgeBase : List KnowledgeItem) (question botName : String)
  | explainCall (knowledgeBase : List KnowledgeItem) (question priorAnswer botName : String)
  | exampleCall (knowledgeBase : List KnowledgeItem) (question priorAnswer botName : String)
  | imageCall (question answer : String)
deriving DecidableEq, Repr

/-- The result of one controller step: the final React state once the
handler (and its `finally` block) has run, together with the list of
`CompletionClient` calls the step performed. -/
structure StepOut where
  state : AppState
  calls : List ClientCall
deriving DecidableEq, Repr

/-- The greeting text of `handleBotSelect`. -/
def greetingText (botName : String) : String :=
  "¡Hola! Soy " ++ botName ++ ", tu asistente de RRHH. Para empezar, añade documentos, PDFs o imágenes a mi memoria usando el panel de la izquierda. Luego, hazme cualquier pregunta."

/-- The greeting `Message` created by `handleBotSelect` (fresh id
`gid`); it has no `relatedQuestionId` and no `imageUrl`. -/
def greetingMessage (bot : Bot) (gid : String) : Message :=
  ⟨gid, Role.model, greetingText bot.name, none, none⟩

/-- Embedding of `handleBotSelect` from `App.tsx`: select the bot, enter the chatting
view, and reset the chat history to the single greeting message. -/
def handleBotSelect (bot : Bot) (gid : String) (s : AppState) : AppState :=
  { s with view := AppView.chatting,
           selectedBot := some bot,
           chatHistory := [greetingMessage bot gid] }

/-- Embedding of `handleAddKnowledge` from `App.tsx`: append the item. -/
def handleAddKnowledge (item : KnowledgeItem) (s : AppState) : AppState :=
  { s with knowledgeBase := s.knowledgeBase ++ [item] }

/-- The precondition error set when the knowledge base is empty. -/
def kbEmptyMsg : String :=
  "Por favor, añade al menos un documento o imagen a la memoria antes de preguntar."

/-- The error set by the catch branch of `handleSendMessage`.  Since
`getAnswer` never throws (its failures are converted to `apologyMsg`
inside `generateContent`), this branch is unreachable. -/
def sendFailMsg : String :=
  "Hubo un error al contactar al asistente. Por favor, intenta de nuevo."

/-- Embedding of `handleSendMessage` from `App.tsx`.  Arguments `uid` and `mid` are the fresh
`crypto.randomUUID()` ids of the new User and Model messages; `api` is
the outcome of the underlying text-generation API call.  The first
guard returns silently; an empty knowledge base sets the precondition
error without calling the client; otherwise the User message is
appended, `getAnswer` is called (it always returns a string), the Model
message is appended with `relatedQuestionId := uid`, the input is
cleared and the loading flag ends `false`. -/
def handleSendMessage (uid mid : String) (api : Except Unit String)
    (s : AppState) : StepOut :=
  if jsTrim s.userInput = "" ∨ s.isLoading = true ∨ s.selectedBot = none then
    ⟨s, []⟩
  else if s.knowledgeBase.length = 0 then
    ⟨{ s with error := some kbEmptyMsg }, []⟩
  else
    match s.selectedBot with
    | none => ⟨s, []⟩
    | some bot =>
      let userMessage : Message := ⟨uid, Role.user, s.userInput, none, none⟩
      let responseText := getAnswer s.knowledgeBase s.userInput bot.name api
      let modelMessage : Message := ⟨mid, Role.model, responseText, none, some uid⟩
      ⟨{ s with chatHistory := s.chatHistory ++ [userMessage, modelMessage],
                userInput := "",
                isLoading := false,
                error := none },
       [ClientCall.answerCall s.knowledgeBase s.userInput bot.name]⟩

/-- The error set by `handleAction` when the original question cannot
be found. -/
def notFoundMsg : String :=
  "No se pudo encontrar la pregunta original para esta acción."

/-- The error set by the catch branch of `handleAction`. -/
def actionFailMsg : String :=
  "Hubo un error al procesar la acción. Por favor, intenta de nuevo."

/-- The fixed caption of an image-action reply. -/
def imageCaption : String :=
  "Aquí tienes una representación visual del concepto:"

/-- The resolution step of `handleAction`:
searching the history for a user message whose id equals the given
back-reference.
A missing `relatedQuestionId` (`none`) matches no message. -/
def findRelatedUser (history : List Message) (relatedQuestionId : Option String) :
    Option Message :=
  history.find? fun m => some m.id == relatedQuestionId && m.role == Role.user

/-- The JS or-else-empty idiom applied to a response text: replace an
empty string by itself (the identity on strings, kept to mirror the
source expression). -/
def textOrEmpty (t : String) : String := if t = "" then "" else t

/-- Embedding of `handleAction` from `App.tsx`.  Argument `newId` is the fresh id of the reply
message; `textApi` is the oracle for the underlying text-generation
call used by the explain/example branches; `imgFirst`/`imgSecond` are
the oracles of the two calls inside `generateImageForConcept`.  Without
a selected bot the handler returns silently; an unresolved
`relatedQuestionId` sets `notFoundMsg` and makes no client call; the
explain/example branches always append a reply (their service calls
never throw); the image branch appends a captioned image reply on
success and sets `actionFailMsg` on failure. -/
def handleAction (action : ActionType) (message : Message) (newId : String)
    (textApi : Except Unit String) (imgFirst : Except String String)
    (imgSecond : Except String ImageResponse) (s : AppState) : StepOut :=
  match s.selectedBot with
  | none => ⟨s, []⟩
  | some bot =>
    match findRelatedUser s.chatHistory message.relatedQuestionId with
    | none => ⟨{ s with error := some notFoundMsg, isLoading := false }, []⟩
    | some relatedUserMessage =>
      let originalQuestion := relatedUserMessage.text
      match action with
      | ActionType.explain =>
        let t := reExplain s.knowledgeBase originalQuestion message.text bot.name textApi
        let modelMessage : Message :=
          ⟨newId, Role.model, textOrEmpty t, none, some relatedUserMessage.id⟩
        ⟨{ s with chatHistory := s.chatHistory ++ [modelMessage],
                  isLoading := false, error := none },
         [ClientCall.explainCall s.knowledgeBase originalQuestion message.text bot.name]⟩
      | ActionType.exampleReq =>
        let t := getExample s.knowledgeBase originalQuestion message.text bot.name textApi
        let modelMessage : Message :=
          ⟨newId, Role.model, textOrEmpty t, none, some relatedUserMessage.id⟩
        ⟨{ s with chatHistory := s.chatHistory ++ [modelMessage],
                  isLoading := false, error := none },
         [ClientCall.exampleCall s.knowledgeBase originalQuestion message.text bot.name]⟩
      | ActionType.image =>
        match generateImageForConcept imgFirst imgSecond with
        | Except.ok url =>
          let modelMessage : Message :=
            ⟨newId, Role.model, imageCaption, some url, some relatedUserMessage.id⟩
          ⟨{ s with chatHistory := s.chatHistory ++ [modelMessage],
                    isLoading := false, error := none },
           [ClientCall.imageCall originalQuestion message.text]⟩
        | Except.error _ =>
          ⟨{ s with error := some actionFailMsg, isLoading := false },
           [ClientCall.imageCall originalQuestion message.text]⟩

/-- Triggering a follow-up action through the UI: the action buttons of
`ChatMessage.tsx` are rendered with `disabled := isLoading`, so while a
request is outstanding a click does nothing; otherwise `handleAction`
runs. -/
def triggerAction (action : ActionType) (message : Message) (newId : String)
    (textApi : Except Unit String) (imgFirst : Except String String)
    (imgSecond : Except String ImageResponse) (s : AppState) : StepOut :=
  if s.isLoading then ⟨s, []⟩
  else handleAction action message newId textApi imgFirst imgSecond s

/-! ## Spec-side characterizations and concrete fixtures -/

/-- The block a single knowledge item contributes to the prompt, stated
as the amended claim describes it: a delimited document block for a
text item; an inline-data block for an image item whose `mimeType` is a
set, non-empty string and whose `content`, split at commas, has a
non-empty second segment; nothing otherwise. -/
def specItemBlock (item : KnowledgeItem) : Option Part :=
  match item.type with
  | ItemType.text => some (Part.text (docBlockText item.name item.content))
  | ItemType.image =>
    match item.mimeType with
    | some m =>
      if m = "" then none
      else
        match (jsSplit item.content ',')[1]? with
        | some d => if d = "" then none else some (Part.inlineData m d)
        | none => none
    | none => none

/-- A sample bot (first entry of `assets/bots.ts`). -/
def botMass : Bot := ⟨"mass", "Mass", "", "#3B82F6", "#2563EB"⟩

/-- A sample text knowledge item. -/
def kbVacaciones : KnowledgeItem :=
  ⟨"d1", "politica", ItemType.text, "Vacaciones: 15 dias al anio", none⟩

/-- A sample user question message. -/
def qMsg : Message := ⟨"q1", Role.user, "Cuantos dias de vacaciones tengo", none, none⟩

/-- A sample model answer to `qMsg`. -/
def aMsg : Message := ⟨"a1", Role.model, "Tienes 15 dias.", none, some "q1"⟩

/-- A model message whose `relatedQuestionId` resolves to no message. -/
def orphanMsg : Message := ⟨"a9", Role.model, "Respuesta sin origen", none, some "zz"⟩

/-- A chatting state with one document and the exchange `qMsg`/`aMsg`. -/
def chatState : AppState :=
  ⟨AppView.chatting, some botMass, [kbVacaciones], [qMsg, aMsg], "", false, none⟩

/-- A chatting state with one document and a pending non-blank question. -/
def askState : AppState :=
  ⟨AppView.chatting, some botMass, [kbVacaciones], [], "Cuantos dias de vacaciones tengo", false, none⟩

/-- A state with an empty knowledge base, a non-blank pending question
and a request outstanding (`isLoading = true`). -/
def busyEmptyState : AppState :=
  ⟨AppView.chatting, some botMass, [], [], "Cuantos dias de vacaciones tengo", true, none⟩

/-- A state with an empty knowledge base, a non-blank pending question
and no request outstanding. -/
def idleEmptyState : AppState :=
  ⟨AppView.chatting, some botMass, [], [], "Cuantos dias de vacaciones tengo", false, none⟩

/-- An image knowledge item whose `mimeType` is set but whose content
is not a data URL (it contains no comma). -/
def commalessImageItem : KnowledgeItem :=
  ⟨"k1", "foto", ItemType.image, "AAAA", some "image/png"⟩

/-! ## Helper lemmas -/

/-- One loop iteration of `buildKnowledgeParts` appends exactly the
block `specItemBlock` describes. -/
lemma partsStep_eq_append (acc : List Part) (item : KnowledgeItem) :
    partsStep acc item = acc ++ (specItemBlock item).toList := by
  obtain ⟨i, n, ty, c, mt⟩ := item
  cases ty with
  | text => simp [partsStep, specItemBlock]
  | image =>
    cases mt with
    | none => simp [partsStep, specItemBlock]
    | some m =>
      by_cases hm : m = ""
      · simp [partsStep, specItemBlock, hm]
      · cases hd : (jsSplit c ',')[1]? with
        | none => simp [partsStep, specItemBlock, hm, hd]
        | some d =>
          by_cases hde : d = ""
          · simp [partsStep, specItemBlock, hm, hd, hde]
          · simp [partsStep, specItemBlock, hm, hd, hde]

/-- Lemma: `buildKnowledgeParts` emits exactly the blocks characterized by
`specItemBlock`, in insertion order. -/
lemma buildKnowledgeParts_eq_filterMap (kb : List KnowledgeItem) :
    buildKnowledgeParts kb = kb.filterMap specItemBlock := by
  suffices h : ∀ acc : List Part,
      kb.foldl partsStep acc = acc ++ kb.filterMap specItemBlock by
    simpa using h []
  induction kb with
  | nil => intro acc; simp
  | cons i kb ih =>
    intro acc
    rw [List.foldl_cons, ih, partsStep_eq_append, List.filterMap_cons]
    cases h : specItemBlock i with
    | none => simp [h]
    | some b => simp [h]

/-! ## Claims -/

/-- C1 (counterexample): the claim predicts one inline-image block for
every Image item whose media type is set, but `commalessImageItem` has
`type = image` and a set media type while `buildKnowledgeParts` emits
no block for it (its content has no comma, so the second segment of
the comma-split content is undefined and the item is skipped): the
prompt parts consist of the instruction block alone. -/
theorem c1_counterexample :
    commalessImageItem.type = ItemType.image ∧
      commalessImageItem.mimeType.isSome = true ∧
      promptParts [commalessImageItem] "hola" = [Part.text (instructionText "hola")] := by
  refine ⟨rfl, rfl, ?_⟩
  rfl

/-- C1 (amended): the prompt parts are exactly the per-item blocks of
`specItemBlock` — a delimited document block per Text item, an
inline-image block per Image item whose media type is set and non-empty
and whose content has a non-empty segment after the first comma — in
insertion order, followed by exactly one trailing instruction block
that contains the user prompt verbatim; nothing else. -/
theorem c1_prompt_assembly (kb : List KnowledgeItem) (t : String) :
    promptParts kb t = kb.filterMap specItemBlock ++ [Part.text (instructionText t)] ∧
      instructionText t =
        "\n---\nBasado en el contexto anterior, responde la siguiente pregunta del empleado:\n\"" ++ t ++ "\"" := by
  exact ⟨by rw [promptParts, buildKnowledgeParts_eq_filterMap], rfl⟩

/-- C2 (confirmed): when a follow-up action on a Model message `M`
resolves `M.relatedQuestionId` to a User message `u` of the history
(and, for the image action, the image generation succeeds), exactly one
new Model message is appended and its `relatedQuestionId` is `u.id` —
the id of the original question, never the own id of `M`. -/
theorem c2_action_appends_reply (s : AppState) (bot : Bot) (M : Message)
    (action : ActionType) (newId : String) (textApi : Except Unit String)
    (imgFirst : Except String String) (imgSecond : Except String ImageResponse)
    (u : Message)
    (hbot : s.selectedBot = some bot)
    (hfind : findRelatedUser s.chatHistory M.relatedQuestionId = some u)
    (hM : M.role = Role.model)
    (huniq : ∀ m ∈ s.chatHistory, m.id = M.id → m.role = Role.model)
    (himg : action = ActionType.image →
      ∃ v, generateImageForConcept imgFirst imgSecond = Except.ok v) :
    ∃ mm : Message,
      (handleAction action M newId textApi imgFirst imgSecond s).state.chatHistory
          = s.chatHistory ++ [mm] ∧
        mm.role = Role.model ∧ mm.relatedQuestionId = some u.id ∧ u.id ≠ M.id := by
  have hfind' : s.chatHistory.find?
      (fun m => some m.id == M.relatedQuestionId && m.role == Role.user) = some u := hfind
  have hu_mem : u ∈ s.chatHistory := List.mem_of_find?_eq_some hfind'
  have hu_pred := List.find?_some hfind'
  simp only [Bool.and_eq_true, beq_iff_eq] at hu_pred
  have hu_role : u.role = Role.user := hu_pred.2
  have hne : u.id ≠ M.id := by
    intro h
    have := huniq u hu_mem h
    rw [hu_role] at this
    exact Role.noConfusion this
  cases action with
  | explain =>
    refine ⟨⟨newId, Role.model,
      textOrEmpty (reExplain s.knowledgeBase u.text M.text bot.name textApi),
      none, some u.id⟩, ?_, rfl, rfl, hne⟩
    simp [handleAction, hbot, hfind]
  | exampleReq =>
    refine ⟨⟨newId, Role.model,
      textOrEmpty (getExample s.knowledgeBase u.text M.text bot.name textApi),
      none, some u.id⟩, ?_, rfl, rfl, hne⟩
    simp [handleAction, hbot, hfind]
  | image =>
    obtain ⟨v, hv⟩ := himg rfl
    refine ⟨⟨newId, Role.model, imageCaption, some v, some u.id⟩, ?_, rfl, rfl, hne⟩
    simp [handleAction, hbot, hfind, hv]

/-- Witness for C2 at a concrete state: the explain action on the
answer `aMsg` (whose back-reference is the id of `qMsg`). -/
theorem c2_action_appends_reply_witness :
    ∃ mm : Message,
      (handleAction ActionType.explain aMsg "a2" (Except.ok "texto")
            (Except.error "x") (Except.error "y") chatState).state.chatHistory
          = chatState.chatHistory ++ [mm] ∧
        mm.role = Role.model ∧ mm.relatedQuestionId = some qMsg.id ∧ qMsg.id ≠ aMsg.id :=
  c2_action_appends_reply chatState botMass aMsg ActionType.explain "a2"
    (Except.ok "texto") (Except.error "x") (Except.error "y") qMsg
    rfl rfl rfl (by decide) (fun h => nomatch h)

/-- C3 (counterexample): the claim predicts that after a failed
`getAnswer` call the history holds the User message but no Model
message.  In the source, `generateContent` catches the failure and
returns the fixed apology string, so `getAnswer` never fails upward:
submitting from `askState` while the underlying API call throws appends
both the User message and a Model reply carrying the apology, and the
error banner stays unset. -/
theorem c3_counterexample :
    (handleSendMessage "u1" "m1" (Except.error ()) askState).state.chatHistory
        = [⟨"u1", Role.user, "Cuantos dias de vacaciones tengo", none, none⟩,
           ⟨"m1", Role.model, apologyMsg, none, some "u1"⟩] ∧
      (handleSendMessage "u1" "m1" (Except.error ()) askState).state.error = none := by
  exact ⟨rfl, rfl⟩

/-- C3 (amended): when the underlying API call of a guarded submission
fails, the failure is absorbed inside `CompletionClient`: the history
gains the User message and a Model reply whose text is the fixed
apology, the error banner ends unset, the guard returns to Idle, and a
subsequent non-blank submission makes a client call again. -/
theorem c3_failure_behavior (s : AppState) (bot : Bot) (uid mid : String)
    (hbot : s.selectedBot = some bot) (hblank : jsTrim s.userInput ≠ "")
    (hload : s.isLoading = false) (hkb : s.knowledgeBase ≠ []) :
    (handleSendMessage uid mid (Except.error ()) s).state.chatHistory
        = s.chatHistory ++
          [⟨uid, Role.user, s.userInput, none, none⟩,
           ⟨mid, Role.model, apologyMsg, none, some uid⟩] ∧
      (handleSendMessage uid mid (Except.error ()) s).state.error = none ∧
      (handleSendMessage uid mid (Except.error ()) s).state.isLoading = false ∧
      ∀ q2 uid2 mid2 api2, jsTrim q2 ≠ "" →
        (handleSendMessage uid2 mid2 api2
            { (handleSendMessage uid mid (Except.error ()) s).state with userInput := q2 }).calls
          = [ClientCall.answerCall s.knowledgeBase q2 bot.name] := by
  obtain ⟨v, sb, kb, hist, ui, il, er⟩ := s
  simp only [AppState.selectedBot] at hbot
  simp only [AppState.isLoading] at hload
  simp only [AppState.userInput] at hblank
  simp only [AppState.knowledgeBase] at hkb
  subst hbot hload
  refine ⟨?_, ?_, ?_, ?_⟩ <;>
    simp [handleSendMessage, hblank, hkb, List.length_eq_zero, getAnswer,
      generateContent]
  intro q2 uid2 mid2 api2 hq2
  simp [handleSendMessage, hq2, hkb, List.length_eq_zero]

/-- Witness for C3 at a concrete state: submitting from `askState`
while the underlying call fails, then resubmitting a second question. -/
theorem c3_failure_behavior_witness :
    (handleSendMessage "u1" "m1" (Except.error ()) askState).state.chatHistory
        = askState.chatHistory ++
          [⟨"u1", Role.user, askState.userInput, none, none⟩,
           ⟨"m1", Role.model, apologyMsg, none, some "u1"⟩] ∧
      (handleSendMessage "u1" "m1" (Except.error ()) askState).state.error = none ∧
      (handleSendMessage "u1" "m1" (Except.error ()) askState).state.isLoading = false ∧
      (handleSendMessage "u2" "m2" (Except.ok "ok")
          { (handleSendMessage "u1" "m1" (Except.error ()) askState).state with
              userInput := "otra pregunta" }).calls
        = [ClientCall.answerCall askState.knowledgeBase "otra pregunta" botMass.name] := by
  have h := c3_failure_behavior askState botMass "u1" "m1" rfl (by decide) rfl (by decide)
  exact ⟨h.1, h.2.1, h.2.2.1, h.2.2.2 "otra pregunta" "u2" "m2" (Except.ok "ok") (by decide)⟩

/-- C4 (confirmed): a guarded submission appends exactly two messages,
in order: a User message carrying the submitted text, then a Model
message whose `relatedQuestionId` is the User message's id; exactly one
`getAnswer` call is made. -/
theorem c4_submit_success (s : AppState) (bot : Bot) (uid mid : String)
    (api : Except Unit String)
    (hbot : s.selectedBot = some bot) (hblank : jsTrim s.userInput ≠ "")
    (hload : s.isLoading = false) (hkb : s.knowledgeBase ≠ []) :
    (handleSendMessage uid mid api s).state.chatHistory
        = s.chatHistory ++
          [⟨uid, Role.user, s.userInput, none, none⟩,
           ⟨mid, Role.model, getAnswer s.knowledgeBase s.userInput bot.name api,
             none, some uid⟩] ∧
      (handleSendMessage uid mid api s).calls
        = [ClientCall.answerCall s.knowledgeBase s.userInput bot.name] := by
  obtain ⟨v, sb, kb, hist, ui, il, er⟩ := s
  simp only [AppState.selectedBot] at hbot
  simp only [AppState.isLoading] at hload
  simp only [AppState.userInput] at hblank
  simp only [AppState.knowledgeBase] at hkb
  subst hbot hload
  constructor <;> simp [handleSendMessage, hblank, hkb, List.length_eq_zero]

/-- Witness for C4: a successful submission from `askState`. -/
theorem c4_submit_success_witness :
    (handleSendMessage "u1" "m1" (Except.ok "Tienes 15 dias.") askState).state.chatHistory
        = askState.chatHistory ++
          [⟨"u1", Role.user, askState.userInput, none, none⟩,
           ⟨"m1", Role.model,
             getAnswer askState.knowledgeBase askState.userInput botMass.name
               (Except.ok "Tienes 15 dias."), none, some "u1"⟩] ∧
      (handleSendMessage "u1" "m1" (Except.ok "Tienes 15 dias.") askState).calls
        = [ClientCall.answerCall askState.knowledgeBase askState.userInput botMass.name] :=
  c4_submit_success askState botMass "u1" "m1" (Except.ok "Tienes 15 dias.")
    rfl (by decide) rfl (by decide)

/-- C5 (confirmed): while a request is outstanding
(`isLoading = true`), submitting a question is a no-op — state
unchanged, no client call — and clicking a follow-up action button
(disabled in `ChatMessage.tsx`) likewise changes nothing and makes no
client call. -/
theorem c5_single_flight (s : AppState) (uid mid newId : String)
    (api textApi : Except Unit String) (action : ActionType) (m : Message)
    (imgFirst : Except String String) (imgSecond : Except String ImageResponse)
    (hload : s.isLoading = true) :
    handleSendMessage uid mid api s = ⟨s, []⟩ ∧
      triggerAction action m newId textApi imgFirst imgSecond s = ⟨s, []⟩ := by
  constructor
  · unfold handleSendMessage
    rw [if_pos (Or.inr (Or.inl hload))]
  · unfold triggerAction
    rw [if_pos hload]

/-- Witness for C5 at the loading state `busyEmptyState`. -/
theorem c5_single_flight_witness :
    handleSendMessage "u1" "m1" (Except.ok "r") busyEmptyState = ⟨busyEmptyState, []⟩ ∧
      triggerAction ActionType.explain aMsg "a2" (Except.ok "t") (Except.error "x")
          (Except.error "y") busyEmptyState
        = ⟨busyEmptyState, []⟩ :=
  c5_single_flight busyEmptyState "u1" "m1" "a2" (Except.ok "r") (Except.ok "t")
    ActionType.explain aMsg (Except.error "x") (Except.error "y") rfl

/-- C6 (counterexample): the claim predicts that submitting with an
empty knowledge base always surfaces a precondition error, but in
`busyEmptyState` — empty knowledge base, non-blank question, request
outstanding — the first guard of `handleSendMessage` returns silently:
the state is unchanged and no error is set (and no client call made). -/
theorem c6_counterexample :
    busyEmptyState.knowledgeBase = [] ∧ jsTrim busyEmptyState.userInput ≠ "" ∧
      handleSendMessage "u1" "m1" (Except.ok "r") busyEmptyState = ⟨busyEmptyState, []⟩ ∧
      busyEmptyState.error = none := by
  exact ⟨rfl, by decide, rfl, rfl⟩

/-- C6 (amended): with an empty knowledge base, submitting never calls
the client and never changes the history; the precondition error is
surfaced when (and only on the path where) the earlier guards pass —
non-blank input, no outstanding request, and a bot selected — otherwise
the submission is silently ignored. -/
theorem c6_empty_kb (s : AppState) (uid mid : String) (api : Except Unit String)
    (hkb : s.knowledgeBase = []) :
    (handleSendMessage uid mid api s).calls = [] ∧
      (handleSendMessage uid mid api s).state.chatHistory = s.chatHistory ∧
      (jsTrim s.userInput ≠ "" → s.isLoading = false → s.selectedBot ≠ none →
        (handleSendMessage uid mid api s).state.error = some kbEmptyMsg) := by
  obtain ⟨v, sb, kb, hist, ui, il, er⟩ := s
  simp only [AppState.knowledgeBase] at hkb
  subst hkb
  by_cases h1 : jsTrim ui = ""
  · simp [handleSendMessage, h1]
  · by_cases h2 : il = true
    · simp [handleSendMessage, h1, h2]
    · rw [Bool.not_eq_true] at h2
      by_cases h3 : sb = none
      · simp [handleSendMessage, h1, h2, h3]
      · simp [handleSendMessage, h1, h2, h3]

/-- Witness for C6 at `idleEmptyState`: the guards pass, so the
empty-knowledge-base precondition error is surfaced, with no call and
an unchanged history. -/
theorem c6_empty_kb_witness :
    (handleSendMessage "u1" "m1" (Except.ok "r") idleEmptyState).calls = [] ∧
      (handleSendMessage "u1" "m1" (Except.ok "r") idleEmptyState).state.chatHistory
        = idleEmptyState.chatHistory ∧
      (handleSendMessage "u1" "m1" (Except.ok "r") idleEmptyState).state.error
        = some kbEmptyMsg := by
  have h := c6_empty_kb idleEmptyState "u1" "m1" (Except.ok "r") rfl
  exact ⟨h.1, h.2.1, h.2.2 (by decide) rfl (by decide)⟩

/-- C7 (confirmed): with a bot selected, triggering any follow-up
action on a message whose `relatedQuestionId` resolves to no User
message sets the "original question not found" error, ends Idle, makes
no client call, and leaves every other state component — chat history
and knowledge base included — unchanged. -/
theorem c7_unresolved_action (s : AppState) (bot : Bot) (action : ActionType)
    (M : Message) (newId : String) (textApi : Except Unit String)
    (imgFirst : Except String String) (imgSecond : Except String ImageResponse)
    (hbot : s.selectedBot = some bot)
    (hfind : findRelatedUser s.chatHistory M.relatedQuestionId = none) :
    handleAction action M newId textApi imgFirst imgSecond s
      = ⟨{ s with error := some notFoundMsg, isLoading := false }, []⟩ := by
  simp [handleAction, hbot, hfind]

/-- Witness for C7: the example action on `orphanMsg`, whose
`relatedQuestionId` `"zz"` matches no message of `chatState`. -/
theorem c7_unresolved_action_witness :
    handleAction ActionType.exampleReq orphanMsg "a3" (Except.ok "t")
        (Except.error "x") (Except.error "y") chatState
      = ⟨{ chatState with error := some notFoundMsg, isLoading := false }, []⟩ :=
  c7_unresolved_action chatState botMass ActionType.exampleReq orphanMsg "a3"
    (Except.ok "t") (Except.error "x") (Except.error "y") rfl rfl

/-- C8 (counterexample): the claim predicts an empty-result error whose
user-facing message differs from the transport-failure message, but
`generateImageForConcept` re-throws both through the same `catch`: an
empty image payload and a failed first call produce the identical
error message `imageFailMsg`. -/
theorem c8_counterexample :
    generateImageForConcept (Except.ok "a visual prompt") (Except.ok ⟨none⟩)
        = Except.error imageFailMsg ∧
      generateImageForConcept (Except.error "network failure") (Except.ok ⟨some "AAAA"⟩)
        = Except.error imageFailMsg := by
  exact ⟨rfl, rfl⟩

/-- C8 (amended): an empty image payload raises the internal
empty-result error `imageEmptyMsg` inside the `try` body — a kind of
its own, and one only the image path can produce — but the surrounding
`catch` collapses it and any transport failure into the same outgoing
message `imageFailMsg`. -/
theorem c8_image_errors (p t : String) (resp : ImageResponse)
    (sc : Except String ImageResponse)
    (hresp : resp.inlineData = none) :
    generateImageAttempt (Except.ok p) (Except.ok resp) = Except.error imageEmptyMsg ∧
      generateImageForConcept (Except.ok p) (Except.ok resp) = Except.error imageFailMsg ∧
      generateImageForConcept (Except.error t) sc = Except.error imageFailMsg := by
  refine ⟨?_, ?_, rfl⟩ <;>
    simp [generateImageAttempt, generateImageForConcept, hresp]

/-- Witness for C8 at a concrete empty response. -/
theorem c8_image_errors_witness :
    generateImageAttempt (Except.ok "x") (Except.ok ⟨none⟩) = Except.error imageEmptyMsg ∧
      generateImageForConcept (Except.ok "x") (Except.ok ⟨none⟩) = Except.error imageFailMsg ∧
      generateImageForConcept (Except.error "y") (Except.ok ⟨none⟩)
        = Except.error imageFailMsg :=
  c8_image_errors "x" "y" ⟨none⟩ (Except.ok ⟨none⟩) rfl

/-- C9 (counterexample): the claim predicts that every request carries
the bot-parameterized system instruction, but the image-generation
request of `generateImageForConcept` carries none at all, and its
prompt-derivation request carries a fixed instruction different from
the base instruction. -/
theorem c9_counterexample :
    (generateImageRequests "Que es" "Una politica." "office illustration").map
        GenRequest.systemInstruction
      = [some promptGenerationInstruction, none] ∧
      promptGenerationInstruction ≠ getBaseSystemInstruction "Mass" := by
  exact ⟨rfl, by decide⟩

/-- C9 (amended): `getAnswer`, `reExplain` and `getExample` each attach
a system instruction equal to the base instruction parameterized by the
bot name (the latter two with a fixed role suffix); the image path's
first call uses the fixed, bot-independent prompt-derivation
instruction and its image call carries no system instruction. -/
theorem c9_system_instructions (kb : List KnowledgeItem) (q a botName p : String) :
    (getAnswerRequests kb q botName).map GenRequest.systemInstruction
        = [some (getBaseSystemInstruction botName)] ∧
      (reExplainRequests kb q a botName).map GenRequest.systemInstruction
        = [some (getBaseSystemInstruction botName ++ reExplainSuffix)] ∧
      (getExampleRequests kb q a botName).map GenRequest.systemInstruction
        = [some (getBaseSystemInstruction botName ++ getExampleSuffix)] ∧
      (generateImageRequests q a p).map GenRequest.systemInstruction
        = [some promptGenerationInstruction, none] := by
  exact ⟨rfl, rfl, rfl, rfl⟩

/-- C10 (confirmed): the greeting created by `handleBotSelect` carries
no `relatedQuestionId`, so triggering any follow-up action on it — in
the very state `handleBotSelect` produces — sets the "original question
not found" error, makes no client call, and appends nothing. -/
theorem c10_greeting_action (bot : Bot) (gid newId : String) (s : AppState)
    (action : ActionType) (textApi : Except Unit String)
    (imgFirst : Except String String) (imgSecond : Except String ImageResponse) :
    (greetingMessage bot gid).relatedQuestionId = none ∧
      handleAction action (greetingMessage bot gid) newId textApi imgFirst imgSecond
          (handleBotSelect bot gid s)
        = ⟨{ handleBotSelect bot gid s with
              error := some notFoundMsg, isLoading := false }, []⟩ := by
  refine ⟨rfl, ?_⟩
  have hfind : findRelatedUser [greetingMessage bot gid]
      (greetingMessage bot gid).relatedQuestionId = none := rfl
  simp [handleAction, handleBotSelect, hfind]

end AsistenteRRHH
